import Mathlib

/-!
Verification of the `flechasdb-s3` content-addressed S3 adapter.

The development shallowly embeds the two source modules:
* `src/syncfs.rs` — synchronous writer (`S3HashedFileOut`) and buffered
  reader (`S3HashedFileIn`) — in namespace `Syncfs`;
* `src/asyncfs.rs` — the streaming asynchronous reader — in namespace
  `Asyncfs`.

Byte sequences are `List Nat` (each element a byte value `< 256`).
External effects (the temporary file, the S3 `Put`/`Get` operations, the
polls of the response body) are passed in explicitly as oracle values
describing the outcome the environment produced, so every function is a
pure, executable Lean definition.

The two external pure dependencies the code calls are implemented
concretely: `ring::digest::SHA256` as `SHA256` (FIPS 180-4 over byte
lists) and the `base64` crate's `STANDARD` and `URL_SAFE_NO_PAD` engines
as `base64_engine_encode` and `url_safe_base64_engine_encode`.
-/

set_option autoImplicit false
set_option maxRecDepth 100000

namespace FlechasdbS3

/-! ## SHA-256 (the `ring::digest::SHA256` algorithm) -/

/-- Truncation to a 32-bit word. -/
def w32 (n : Nat) : Nat := n % 4294967296

/-- Right rotation of a 32-bit word. -/
def rotr (n x : Nat) : Nat := w32 ((x >>> n) ||| (x <<< (32 - n)))

/-- Logical right shift. -/
def shr (n x : Nat) : Nat := x >>> n

def bigSigma0 (x : Nat) : Nat := (rotr 2 x) ^^^ (rotr 13 x) ^^^ (rotr 22 x)

def bigSigma1 (x : Nat) : Nat := (rotr 6 x) ^^^ (rotr 11 x) ^^^ (rotr 25 x)

def smallSigma0 (x : Nat) : Nat := (rotr 7 x) ^^^ (rotr 18 x) ^^^ (shr 3 x)

def smallSigma1 (x : Nat) : Nat := (rotr 17 x) ^^^ (rotr 19 x) ^^^ (shr 10 x)

def ch (x y z : Nat) : Nat := (x &&& y) ^^^ ((x ^^^ 4294967295) &&& z)

def maj (x y z : Nat) : Nat := (x &&& y) ^^^ (x &&& z) ^^^ (y &&& z)

/-- The 64 SHA-256 round constants (FIPS 180-4, written in decimal). -/
def K256 : List Nat :=
  [1116352408, 1899447441, 3049323471, 3921009573,
   961987163, 1508970993, 2453635748, 2870763221,
   3624381080, 310598401, 607225278, 1426881987,
   1925078388, 2162078206, 2614888103, 3248222580,
   3835390401, 4022224774, 264347078, 604807628,
   770255983, 1249150122, 1555081692, 1996064986,
   2554220882, 2821834349, 2952996808, 3210313671,
   3336571891, 3584528711, 113926993, 338241895,
   666307205, 773529912, 1294757372, 1396182291,
   1695183700, 1986661051, 2177026350, 2456956037,
   2730485921, 2820302411, 3259730800, 3345764771,
   3516065817, 3600352804, 4094571909, 275423344,
   430227734, 506948616, 659060556, 883997877,
   958139571, 1322822218, 1537002063, 1747873779,
   1955562222, 2024104815, 2227730452, 2361852424,
   2428436474, 2756734187, 3204031479, 3329325298]

/-- The initial SHA-256 hash state (FIPS 180-4, written in decimal). -/
def H256 : List Nat :=
  [1779033703, 3144134277, 1013904242, 2773480762,
   1359893119, 2600822924, 528734635, 1541459225]

/-- Big-endian packing of bytes into 32-bit words. -/
def bytesToWords : List Nat → List Nat
  | a :: b :: c :: d :: rest =>
      (a * 16777216 + b * 65536 + c * 256 + d) :: bytesToWords rest
  | _ => []

/-- One message-schedule extension step on the reversed word list
(head is the most recent word). -/
def stepW (r : List Nat) : List Nat :=
  w32 (smallSigma1 (r.getD 1 0) + r.getD 6 0 +
       smallSigma0 (r.getD 14 0) + r.getD 15 0) :: r

/-- Iterate the message-schedule extension `k` times. -/
def extendW (r : List Nat) : Nat → List Nat
  | 0 => r
  | k + 1 => extendW (stepW r) k

/-- One compression round. The state is the list `[a,b,c,d,e,f,g,h]`. -/
def roundStep (W : List Nat) (st : List Nat) (t : Nat) : List Nat :=
  let a := st.getD 0 0
  let b := st.getD 1 0
  let c := st.getD 2 0
  let d := st.getD 3 0
  let e := st.getD 4 0
  let f := st.getD 5 0
  let g := st.getD 6 0
  let h := st.getD 7 0
  let T1 := w32 (h + bigSigma1 e + ch e f g + K256.getD t 0 + W.getD t 0)
  let T2 := w32 (bigSigma0 a + maj a b c)
  [w32 (T1 + T2), a, b, c, w32 (d + T1), e, f, g]

/-- Compression of one 64-byte block into the running hash state. -/
def compressBlock (st : List Nat) (block : List Nat) : List Nat :=
  let W := (extendW (bytesToWords block).reverse 48).reverse
  let fin := (List.range 64).foldl (roundStep W) st
  List.zipWith (fun x y => w32 (x + y)) st fin

/-- Split into 64-byte chunks (fuel-driven so the kernel can evaluate it). -/
def chunks64Go : Nat → List Nat → List (List Nat)
  | _, [] => []
  | 0, _ => []
  | fuel + 1, l => l.take 64 :: chunks64Go fuel (l.drop 64)

def chunks64 (l : List Nat) : List (List Nat) := chunks64Go l.length l

/-- Big-endian 8-byte encoding of a length (in bits). -/
def lenBytes8 (n : Nat) : List Nat :=
  [n >>> 56 % 256, n >>> 48 % 256, n >>> 40 % 256, n >>> 32 % 256,
   n >>> 24 % 256, n >>> 16 % 256, n >>> 8 % 256, n % 256]

/-- SHA-256 message padding. -/
def sha256pad (msg : List Nat) : List Nat :=
  let z := (119 - msg.length % 64) % 64
  msg ++ 128 :: List.replicate z 0 ++ lenBytes8 (8 * msg.length)

/-- Big-endian bytes of a 32-bit word. -/
def wordBytes (w : Nat) : List Nat :=
  [w / 16777216 % 256, w / 65536 % 256, w / 256 % 256, w % 256]

/-- SHA-256 of a byte sequence, as the 32-byte digest. -/
def SHA256 (msg : List Nat) : List Nat :=
  (((chunks64 (sha256pad msg)).foldl compressBlock H256).map wordBytes).flatten

/-! ## Base64 (the `base64` crate engines used by the code) -/

def stdAlphabet : List Char :=
  "ABCDEFGHIJKLMNOPQRSTUVWXYZabcdefghijklmnopqrstuvwxyz0123456789+/".toList

def urlSafeAlphabet : List Char :=
  "ABCDEFGHIJKLMNOPQRSTUVWXYZabcdefghijklmnopqrstuvwxyz0123456789-_".toList

def b64Char (alpha : List Char) (n : Nat) : Char := alpha.getD n 'A'

/-- Unpadded Base64 encoding of a byte sequence over a given alphabet. -/
def b64EncodeCore (alpha : List Char) : List Nat → List Char
  | [] => []
  | [b1] => [b64Char alpha (b1 / 4), b64Char alpha (b1 % 4 * 16)]
  | [b1, b2] =>
      [b64Char alpha (b1 / 4), b64Char alpha (b1 % 4 * 16 + b2 / 16),
       b64Char alpha (b2 % 16 * 4)]
  | b1 :: b2 :: b3 :: rest =>
      b64Char alpha (b1 / 4) ::
      b64Char alpha (b1 % 4 * 16 + b2 / 16) ::
      b64Char alpha (b2 % 16 * 4 + b3 / 64) ::
      b64Char alpha (b3 % 64) ::
      b64EncodeCore alpha rest

def b64Encode (alpha : List Char) (pad : Bool) (bs : List Nat) : String :=
  let core := b64EncodeCore alpha bs
  let padding := if pad then List.replicate ((4 - core.length % 4) % 4) '=' else []
  String.mk (core ++ padding)

/-- `base64::engine::general_purpose::STANDARD.encode` (padded). -/
def base64_engine_encode (bs : List Nat) : String := b64Encode stdAlphabet true bs

/-- `base64::engine::general_purpose::URL_SAFE_NO_PAD.encode` (unpadded). -/
def url_safe_base64_engine_encode (bs : List Nat) : String :=
  b64Encode urlSafeAlphabet false bs

/-! ## The `flechasdb::error::Error` variants the code constructs -/

/-- The error variants of `flechasdb::error::Error` that this crate
constructs. `IOError` stands for the variant produced by the `?`
conversion from `std::io::Error` (used by `create` and `flush`); the two
modules construct `InvalidContext` and `VerificationFailure` explicitly. -/
inductive Error where
  | InvalidContext : String → Error
  | VerificationFailure : String → Error
  | IOError : String → Error
deriving DecidableEq

/-- Two errors fall in the same category of the taxonomy exactly when they
use the same variant of `flechasdb::error::Error`. -/
def sameErrorCategory : Error → Error → Bool
  | .InvalidContext _, .InvalidContext _ => true
  | .VerificationFailure _, .VerificationFailure _ => true
  | .IOError _, .IOError _ => true
  | _, _ => false

/-- Rust `Debug` escaping of the characters that can occur in a checksum
string coming over HTTP (quote, backslash, and the common control
characters). -/
def rustEscapeChar (c : Char) : List Char :=
  if c = '"' then ['\\', '"']
  else if c = '\\' then ['\\', '\\']
  else if c = '\n' then ['\\', 'n']
  else if c = '\t' then ['\\', 't']
  else if c = '\r' then ['\\', 'r']
  else [c]

def rustEscapeString (s : String) : String :=
  String.mk (s.toList.foldr (fun c acc => rustEscapeChar c ++ acc) [])

/-- Rust `{:?}` rendering of an `Option<String>`. -/
def debugOption : Option String → String
  | none => "None"
  | some s => "Some(\"" ++ rustEscapeString s ++ "\")"

/-! ## `src/syncfs.rs` -/

namespace Syncfs

/-- The outcome the temporary file produces for one `tempfile.write(buf)`
call, following the `std::io::Write` contract: either the first `n` bytes
of `buf` were accepted (`n ≤ buf.len()`), or an I/O error occurred and
nothing was appended. -/
inductive WriteOutcome where
  | accepted : Nat → WriteOutcome
  | ioError : String → WriteOutcome
deriving DecidableEq

/-- State of `syncfs::S3HashedFileOut`. `tempfile` is the byte content of
the named temporary file (the scratch buffer); `digest` is the byte
sequence fed so far to the `ring::digest::Context` accumulator. The
`runtime_handle` and `s3` client handles carry no data relevant to the
claims and are omitted. -/
structure S3HashedFileOut where
  tempfile : List Nat
  bucket_name : String
  base_path : String
  digest : List Nat
deriving DecidableEq

/-- `S3HashedFileOut::create`: a fresh temporary file (whose creation may
fail with an I/O error, propagated by `?`) and a fresh digest context. -/
def S3HashedFileOut.create (bucket_name base_path : String)
    (tf : Except String Unit) : Except Error S3HashedFileOut :=
  match tf with
  | .error e => .error (.IOError e)
  | .ok _ => .ok ⟨[], bucket_name, base_path, []⟩

/-- `impl Write for S3HashedFileOut::write`:
`self.digest.update(buf); self.tempfile.write(buf)`. The digest is fed
the whole of `buf` before the temporary file is written; the file then
accepts a prefix (or fails) according to the oracle. Returns the new
state and the `std::io::Result<usize>`. -/
def S3HashedFileOut.write (s : S3HashedFileOut) (buf : List Nat)
    (tf : WriteOutcome) : S3HashedFileOut × Except String Nat :=
  let s := { s with digest := s.digest ++ buf }
  match tf with
  | .accepted n => ({ s with tempfile := s.tempfile ++ buf.take n }, .ok n)
  | .ioError e => (s, .error e)

/-- The `PutObject` request `persist` sends to S3. -/
structure PutRequest where
  bucket : String
  key : String
  checksum_sha256 : String
  body : List Nat
deriving DecidableEq

/-- `S3HashedFileOut::persist`. Oracles: `flushRes` for
`self.flush()`, `bodyRes` for `ByteStream::from_path` on the temporary
file (success yields the file's bytes, i.e. `s.tempfile`), `putRes` for
the S3 `PutObject` call. Returns the result together with the request
that was sent (`none` when the failure occurred before sending). -/
def S3HashedFileOut.persist (s : S3HashedFileOut) (extension : String)
    (flushRes : Except String Unit) (bodyRes : Except String Unit)
    (putRes : Except String Unit) :
    Except Error String × Option PutRequest :=
  match flushRes with
  | .error e => (.error (.IOError e), none)
  | .ok _ =>
    let digest := SHA256 s.digest
    let id := url_safe_base64_engine_encode digest
    let checksum := base64_engine_encode digest
    let key := s.base_path ++ "/" ++ id ++ "." ++ extension
    match bodyRes with
    | .error e =>
        (.error (.InvalidContext ("failed to read the temporary file: " ++ e)),
         none)
    | .ok _ =>
      let req : PutRequest := ⟨s.bucket_name, key, checksum, s.tempfile⟩
      match putRes with
      | .error e =>
          (.error (.InvalidContext ("failed to upload the content to S3: " ++ e)),
           some req)
      | .ok _ => (.ok id, some req)

/-- Writing a list of chunks in order, each fully accepted by the
temporary file (the successful path). -/
def writeChunks (s : S3HashedFileOut) : List (List Nat) → S3HashedFileOut
  | [] => s
  | c :: rest => writeChunks (s.write c (.accepted c.length)).1 rest

/-- State of `syncfs::S3HashedFileIn`: the in-memory body, the read
cursor, the checksum captured at open, and the bytes fed so far to the
digest accumulator. -/
structure S3HashedFileIn where
  body : List Nat
  read_pos : Nat
  checksum : String
  digest : List Nat
deriving DecidableEq

/-- Outcome of the S3 `GetObject` call as `open` observes it: either the
request failed, or it resolved with an optional `checksum_sha256`
attribute and a body whose collection into memory may itself fail. -/
inductive GetResult where
  | err : String → GetResult
  | ok : Option String → Except String (List Nat) → GetResult

/-- `S3HashedFileIn::open` (named `openFile` because `open` is a Lean
keyword): checks the request outcome, then the checksum attribute, then
collects the body. -/
def S3HashedFileIn.openFile (res : GetResult) : Except Error S3HashedFileIn :=
  match res with
  | .err e =>
      .error (.InvalidContext ("failed to request the content from S3: " ++ e))
  | .ok chk bodyRes =>
    match chk with
    | none => .error (.InvalidContext "no checksum for the content from S3")
    | some checksum =>
      match bodyRes with
      | .error e =>
          .error (.InvalidContext ("failed to read the content from S3: " ++ e))
      | .ok body => .ok ⟨body, 0, checksum, []⟩

/-- `impl Read for S3HashedFileIn::read`: reading from the slice
`&self.body[self.read_pos..]` copies `min (buf.len) (remaining)` bytes,
advances the cursor, and feeds exactly the copied bytes (`&buf[..n]`) to
the digest. Returns the new state, the count, and the copied bytes. -/
def S3HashedFileIn.read (s : S3HashedFileIn) (bufLen : Nat) :
    S3HashedFileIn × Nat × List Nat :=
  let stream := s.body.drop s.read_pos
  let n := min bufLen stream.length
  let copied := stream.take n
  ({ s with read_pos := s.read_pos + n, digest := s.digest ++ copied },
   n, copied)

/-- `impl HashedFileIn for S3HashedFileIn::verify` (the message text,
including the `checsum` typo, is the source's). -/
def S3HashedFileIn.verify (s : S3HashedFileIn) : Except Error Unit :=
  let digest := SHA256 s.digest
  let checksum := base64_engine_encode digest
  if checksum = s.checksum then .ok ()
  else
    .error (.VerificationFailure
      ("checsum discrepancy: expected " ++ s.checksum ++ " but got " ++ checksum))

end Syncfs

/-! ## `src/asyncfs.rs` -/

namespace Asyncfs

/-- State of `asyncfs::S3HashedFileIn`: the bytes fed so far to the
digest accumulator, the checksum captured when the `GetObject` response
resolved, and whether the response body has been wrapped into a
`StreamReader` (`body.isSome` is the `Streaming` state; the byte stream
itself is external and its polls arrive as oracles). -/
structure S3HashedFileIn where
  digest : List Nat
  checksum : Option String
  body : Option Unit
deriving DecidableEq

/-- `S3HashedFileIn::open`: issues the request and returns the state with
a fresh digest, no checksum, and no body (the `AwaitingResponse` state). -/
def S3HashedFileIn.openFile : S3HashedFileIn := ⟨[], none, none⟩

/-- Outcome of one poll of the pending `GetObject` future: still pending,
failed, or resolved with an optional `checksum_sha256` attribute. -/
inductive GetPoll where
  | pending
  | ready_err : String → GetPoll
  | ready_ok : Option String → GetPoll
deriving DecidableEq

/-- Outcome of one poll of the wrapped body stream, following the
`AsyncRead` contract on the caller's `ReadBuf`: on success the filled
region grows by the read bytes; pending and error polls add nothing. -/
inductive BodyPoll where
  | pending
  | ready_err : String → BodyPoll
  | ready_ok : List Nat → BodyPoll
deriving DecidableEq

/-- The `std::io::Error` values `poll_read` can surface: a wrapped
`flechasdb` error (`io::Error::new(Other, Error::...)`), a wrapped
`SdkError` from the request, or an error passed through unchanged from
the body stream. -/
inductive IoErr where
  | wrappedError : Error → IoErr
  | wrappedSdk : String → IoErr
  | raw : String → IoErr
deriving DecidableEq

/-- The value of `Poll<std::io::Result<()>>` returned by one call. -/
inductive PollResult where
  | pending
  | ready_ok
  | ready_err : IoErr → PollResult
deriving DecidableEq

/-- Branch 2 of `poll_read` ("reads the contents"): remember
`last_pos = buf.filled().len()`, poll the body, and on success feed the
digest with `buf.filled()[last_pos..]` when the filled region grew. -/
def pollBody (s : S3HashedFileIn) (bodyRes : BodyPoll) (filled : List Nat) :
    S3HashedFileIn × PollResult × List Nat :=
  let last_pos := filled.length
  match bodyRes with
  | .ready_ok newBytes =>
      let filled' := filled ++ newBytes
      let s' :=
        if last_pos < filled'.length
        then { s with digest := s.digest ++ filled'.drop last_pos }
        else s
      (s', .ready_ok, filled')
  | .pending => (s, .pending, filled)
  | .ready_err e => (s, .ready_err (.raw e), filled)

/-- `impl AsyncRead for S3HashedFileIn::poll_read`. `filled` is the
already-filled content of the caller's `ReadBuf`. When the body is
present the call polls it directly; otherwise it polls the pending
`GetObject` future, and on a successful response with a checksum stores
the checksum, wraps the body, and continues the loop into the body
branch. Returns the new state, the poll result, and the buffer's new
filled content. -/
def S3HashedFileIn.poll_read (s : S3HashedFileIn) (getRes : GetPoll)
    (bodyRes : BodyPoll) (filled : List Nat) :
    S3HashedFileIn × PollResult × List Nat :=
  match s.body with
  | some _ => pollBody s bodyRes filled
  | none =>
    match getRes with
    | .pending => (s, .pending, filled)
    | .ready_err e => (s, .ready_err (.wrappedSdk e), filled)
    | .ready_ok chk =>
      match chk with
      | some c => pollBody { s with checksum := some c, body := some () } bodyRes filled
      | none =>
          (s,
           .ready_err (.wrappedError (.InvalidContext "no checksum for the S3 object")),
           filled)

/-- `impl HashedFileIn for S3HashedFileIn::verify`: the comparison
`Some(&checksum) == self.checksum.as_ref()` and the `{:?}`-formatted
message. -/
def S3HashedFileIn.verify (s : S3HashedFileIn) : Except Error Unit :=
  let digest := SHA256 s.digest
  let checksum := base64_engine_encode digest
  if some checksum = s.checksum then .ok ()
  else
    .error (.VerificationFailure
      ("checksum discrepancy: expected " ++ debugOption s.checksum ++
       " but got " ++ checksum))

/-- One `poll_read` call folded over a trace input. -/
def runPoll (s : S3HashedFileIn) (i : GetPoll × BodyPoll × List Nat) :
    S3HashedFileIn :=
  (s.poll_read i.1 i.2.1 i.2.2).1

/-- Number of `AwaitingResponse → Streaming` transitions along a trace of
polls. -/
def countTransitions (s : S3HashedFileIn) :
    List (GetPoll × BodyPoll × List Nat) → Nat
  | [] => 0
  | i :: rest =>
      let s' := runPoll s i
      (if s.body = none ∧ s'.body ≠ none then 1 else 0) +
        countTransitions s' rest

end Asyncfs

/-! ## Sanity anchors for the embedded external dependencies -/

/-- The embedded SHA-256 agrees with the FIPS 180-4 test vector for the
empty message. -/
theorem sha256_empty_vector :
    SHA256 [] =
      [227, 176, 196, 66, 152, 252, 28, 20,
       154, 251, 244, 200, 153, 111, 185, 36,
       39, 174, 65, 228, 100, 155, 147, 76,
       164, 149, 153, 27, 120, 82, 184, 85] := by decide

/-- The two Base64 engines agree with the well-known encodings of the
empty-message digest (standard padded, and URL-safe unpadded). -/
theorem base64_empty_digest :
    base64_engine_encode (SHA256 []) = "47DEQpj8HBSa+/TImW+5JCeuQeRkm5NMpJWZG3hSuFU="
  ∧ url_safe_base64_engine_encode (SHA256 []) = "47DEQpj8HBSa-_TImW-5JCeuQeRkm5NMpJWZG3hSuFU" := by
  constructor <;> decide

/-! ## Helper lemmas -/

/-- Writing a list of chunks (each fully accepted) appends their
concatenation to both the scratch buffer and the digest accumulator. -/
theorem writeChunks_eq (cs : List (List Nat)) (s : Syncfs.S3HashedFileOut) :
    Syncfs.writeChunks s cs =
      ⟨s.tempfile ++ cs.flatten, s.bucket_name, s.base_path,
       s.digest ++ cs.flatten⟩ := by
  induction cs generalizing s with
  | nil => simp [Syncfs.writeChunks]
  | cons c rest ih =>
      simp [Syncfs.writeChunks, Syncfs.S3HashedFileOut.write, ih,
        List.take_length, List.append_assoc]

/-- A poll from the `Streaming` state leaves the reader in the
`Streaming` state. -/
theorem poll_read_body_some (s : Asyncfs.S3HashedFileIn)
    (g : Asyncfs.GetPoll) (b : Asyncfs.BodyPoll) (filled : List Nat)
    (h : s.body = some ()) :
    ((s.poll_read g b filled).1).body = some () := by
  simp only [Asyncfs.S3HashedFileIn.poll_read, h]
  cases b with
  | ready_ok newBytes => simp only [Asyncfs.pollBody]; split <;> simp [h]
  | pending => exact h
  | ready_err e => exact h

/-- No `AwaitingResponse → Streaming` transition can happen along a trace
that starts in the `Streaming` state. -/
theorem countTransitions_streaming
    (tr : List (Asyncfs.GetPoll × Asyncfs.BodyPoll × List Nat))
    (s : Asyncfs.S3HashedFileIn) (h : s.body = some ()) :
    Asyncfs.countTransitions s tr = 0 := by
  induction tr generalizing s with
  | nil => rfl
  | cons i rest ih =>
      simp only [Asyncfs.countTransitions, Asyncfs.runPoll, h]
      rw [ih _ (poll_read_body_some _ _ _ _ h)]
      simp

/-! ## Claim C1 -/

/-- Claim C1, counterexample. At the fresh writer, a `write([0])` whose
temporary-file write accepts 0 bytes (a partial accept allowed by the
`std::io::Write` contract) still folds the byte `0` into the digest
accumulator: the digest reflects a byte the scratch buffer did not
accept, contradicting the claim that the folded bytes are exactly the
bytes that land in the buffer. -/
theorem c1_counterexample :
    ((Syncfs.S3HashedFileOut.write ⟨[], "b", "p", []⟩ [0] (.accepted 0)).1.digest = [0])
  ∧ ((Syncfs.S3HashedFileOut.write ⟨[], "b", "p", []⟩ [0] (.accepted 0)).1.tempfile = [])
  ∧ ((Syncfs.S3HashedFileOut.write ⟨[], "b", "p", []⟩ [0] (.accepted 0)).2 = .ok 0)
  ∧ (Syncfs.S3HashedFileOut.write ⟨[], "b", "p", []⟩ [0] (.accepted 0)).1.digest
      ≠ (Syncfs.S3HashedFileOut.write ⟨[], "b", "p", []⟩ [0] (.accepted 0)).1.tempfile := by
  exact ⟨rfl, rfl, rfl, by decide⟩

/-- Claim C1, amended: `write(bytes)` folds the whole of `bytes` into the
digest accumulator before forwarding them to the scratch buffer; the
returned count is the number of bytes the buffer accepted and the buffer
receives exactly that prefix, so whenever the buffer accepts all of
`bytes` (every fully successful write) the digest delta equals the
buffer delta — but on a partial accept or a local I/O failure the digest
still reflects the whole of `bytes`. -/
theorem c1_write_amended (s : Syncfs.S3HashedFileOut) (buf : List Nat)
    (tf : Syncfs.WriteOutcome) :
    ((s.write buf tf).1.digest = s.digest ++ buf)
  ∧ (∀ n, (s.write buf (.accepted n)).1.tempfile = s.tempfile ++ buf.take n
        ∧ (s.write buf (.accepted n)).2 = Except.ok n)
  ∧ ((s.write buf (.accepted buf.length)).1.tempfile = s.tempfile ++ buf)
  ∧ (∀ e, (s.write buf (.ioError e)).1.tempfile = s.tempfile
        ∧ (s.write buf (.ioError e)).2 = Except.error e) := by
  refine ⟨?_, fun n => ⟨rfl, rfl⟩, ?_, fun e => ⟨rfl, rfl⟩⟩
  · cases tf <;> rfl
  · simp [Syncfs.S3HashedFileOut.write, List.take_length]

/-! ## Claim C7 -/

/-- Claim C7, counterexample. A failing S3 `Put` during `persist` and a
failing S3 `Get` during `open` are both surfaced as
`Error::InvalidContext` — the very same variant the code uses for the
missing-checksum context violation — so the transport-failure error is
not distinct from the context-violation error category. -/
theorem c7_counterexample :
    ((Syncfs.S3HashedFileOut.persist ⟨[1], "b", "p", [1]⟩ "bin"
        (.ok ()) (.ok ()) (.error "boom")).1
      = .error (.InvalidContext ("failed to upload the content to S3: " ++ "boom")))
  ∧ (Syncfs.S3HashedFileIn.openFile (.err "boom")
      = .error (.InvalidContext ("failed to request the content from S3: " ++ "boom")))
  ∧ (Syncfs.S3HashedFileIn.openFile (.ok none (.ok []))
      = .error (.InvalidContext "no checksum for the content from S3"))
  ∧ sameErrorCategory
      (.InvalidContext ("failed to upload the content to S3: " ++ "boom"))
      (.InvalidContext "no checksum for the content from S3") = true := by
  exact ⟨rfl, rfl, rfl, rfl⟩

/-- Claim C7, amended: whenever the remote store operation fails (`Put`
during `persist`, `Get` during `open`), the returned error wraps the
underlying cause in its message, but it is reported as
`Error::InvalidContext` — the same category the code uses for context
violations — rather than as a distinct transport-failure category. -/
theorem c7_transport_amended (s : Syncfs.S3HashedFileOut)
    (extension e g : String) :
    ((s.persist extension (.ok ()) (.ok ()) (.error e)).1
        = .error (.InvalidContext ("failed to upload the content to S3: " ++ e)))
  ∧ (Syncfs.S3HashedFileIn.openFile (.err g)
        = .error (.InvalidContext ("failed to request the content from S3: " ++ g))) := by
  exact ⟨rfl, rfl⟩

/-! ## Claim C8 -/

/-- Claim C8, counterexample. With a one-byte body, cursor at 0, and a
zero-length caller buffer, `read` returns 0 although the cursor has not
reached the end of the body: "returns 0 exactly when the cursor has
reached the end" fails for empty buffers. -/
theorem c8_counterexample :
    ((Syncfs.S3HashedFileIn.read ⟨[0], 0, "c", []⟩ 0).2.1 = 0)
  ∧ ((⟨[0], 0, "c", []⟩ : Syncfs.S3HashedFileIn).read_pos
      ≠ (⟨[0], 0, "c", []⟩ : Syncfs.S3HashedFileIn).body.length) := by
  exact ⟨rfl, by decide⟩

/-- Claim C8, amended: every `read(buf)` call copies up to `len(buf)`
bytes starting at the cursor, advances the cursor by exactly the
returned count, folds exactly the copied bytes into the digest, and
returns 0 exactly when the cursor has reached the end of the body or the
supplied buffer has length 0; across any sequence of reads the cursor is
monotonically non-decreasing and never exceeds the body length. -/
theorem c8_read_amended (s : Syncfs.S3HashedFileIn) (bufLen : Nat)
    (h : s.read_pos ≤ s.body.length) :
    ((s.read bufLen).2.1 = min bufLen (s.body.length - s.read_pos))
  ∧ ((s.read bufLen).2.2 = (s.body.drop s.read_pos).take ((s.read bufLen).2.1))
  ∧ ((s.read bufLen).1.read_pos = s.read_pos + (s.read bufLen).2.1)
  ∧ (s.read_pos ≤ (s.read bufLen).1.read_pos)
  ∧ ((s.read bufLen).1.read_pos ≤ s.body.length)
  ∧ ((s.read bufLen).2.1 = 0 ↔ (s.read_pos = s.body.length ∨ bufLen = 0))
  ∧ ((s.read bufLen).1.digest = s.digest ++ (s.read bufLen).2.2)
  ∧ ((s.read bufLen).1.body = s.body)
  ∧ ((s.read bufLen).1.checksum = s.checksum) := by
  refine ⟨?_, ?_, ?_, ?_, ?_, ?_, ?_, ?_, ?_⟩ <;>
    simp [Syncfs.S3HashedFileIn.read, List.length_drop] <;> omega

/-- Claim C8, witness for the amended theorem at body `[1,2,3]`, cursor
1, buffer length 2. -/
theorem c8_read_witness :
    ((⟨[1, 2, 3], 1, "c", [1]⟩ : Syncfs.S3HashedFileIn).read_pos
        ≤ (⟨[1, 2, 3], 1, "c", [1]⟩ : Syncfs.S3HashedFileIn).body.length)
  ∧ (((⟨[1, 2, 3], 1, "c", [1]⟩ : Syncfs.S3HashedFileIn).read 2).2.1 = min 2 (3 - 1)
  ∧ (((⟨[1, 2, 3], 1, "c", [1]⟩ : Syncfs.S3HashedFileIn).read 2).2.2
      = (([1, 2, 3] : List Nat).drop 1).take
          (((⟨[1, 2, 3], 1, "c", [1]⟩ : Syncfs.S3HashedFileIn).read 2).2.1))
  ∧ (((⟨[1, 2, 3], 1, "c", [1]⟩ : Syncfs.S3HashedFileIn).read 2).1.read_pos
      = 1 + ((⟨[1, 2, 3], 1, "c", [1]⟩ : Syncfs.S3HashedFileIn).read 2).2.1)
  ∧ (1 ≤ ((⟨[1, 2, 3], 1, "c", [1]⟩ : Syncfs.S3HashedFileIn).read 2).1.read_pos)
  ∧ (((⟨[1, 2, 3], 1, "c", [1]⟩ : Syncfs.S3HashedFileIn).read 2).1.read_pos ≤ 3)
  ∧ (((⟨[1, 2, 3], 1, "c", [1]⟩ : Syncfs.S3HashedFileIn).read 2).2.1 = 0 ↔ (1 = 3 ∨ 2 = 0))
  ∧ (((⟨[1, 2, 3], 1, "c", [1]⟩ : Syncfs.S3HashedFileIn).read 2).1.digest
      = [1] ++ ((⟨[1, 2, 3], 1, "c", [1]⟩ : Syncfs.S3HashedFileIn).read 2).2.2)
  ∧ (((⟨[1, 2, 3], 1, "c", [1]⟩ : Syncfs.S3HashedFileIn).read 2).1.body = [1, 2, 3])
  ∧ (((⟨[1, 2, 3], 1, "c", [1]⟩ : Syncfs.S3HashedFileIn).read 2).1.checksum = "c")) :=
  ⟨by decide, c8_read_amended ⟨[1, 2, 3], 1, "c", [1]⟩ 2 (by decide)⟩

/-! ## Claim C10 -/

/-- Claim C10: for the streaming reader, if no poll has ever resolved the
fetch response (so no checksum was recorded, `checksum = none`),
`verify` can never return `Ok`: the computed digest encoding is a
present value, which never equals the absent stored checksum, and the
returned error is the verification-failure error naming `None` as the
expected value. -/
theorem c10_verify_absent (s : Asyncfs.S3HashedFileIn)
    (h : s.checksum = none) :
    (s.verify ≠ .ok ())
  ∧ (s.verify = .error (.VerificationFailure
      ("checksum discrepancy: expected " ++ debugOption none ++ " but got "
        ++ base64_engine_encode (SHA256 s.digest)))) := by
  constructor <;> simp [Asyncfs.S3HashedFileIn.verify, h]

/-- Claim C10, witness at the freshly opened reader (digest empty,
checksum absent). -/
theorem c10_verify_witness :
    ((Asyncfs.S3HashedFileIn.mk [] none none).checksum = none)
  ∧ ((Asyncfs.S3HashedFileIn.verify ⟨[], none, none⟩ ≠ .ok ())
  ∧ (Asyncfs.S3HashedFileIn.verify ⟨[], none, none⟩
      = .error (.VerificationFailure
        ("checksum discrepancy: expected " ++ debugOption none ++ " but got "
          ++ base64_engine_encode (SHA256 []))))) :=
  ⟨rfl, c10_verify_absent ⟨[], none, none⟩ rfl⟩

/-! ## Claim C2 -/

/-- Claim C2: for every sequence of bytes written through the writer and
every extension, `persist(extension)` uploads the buffered bytes to the
key `{base_path}/{urlsafe-base64-nopad(sha256(content))}.{extension}`,
attaches the standard (padded) Base64 encoding of the same raw 32-byte
SHA-256 digest as the transfer checksum, and on success returns the
URL-safe unpadded Base64 encoding of that digest as the ContentId. -/
theorem c2_persist_upload (bucket base extension : String)
    (chunks : List (List Nat)) :
    (Syncfs.writeChunks ⟨[], bucket, base, []⟩ chunks).persist extension
        (.ok ()) (.ok ()) (.ok ())
      = (.ok (url_safe_base64_engine_encode (SHA256 chunks.flatten)),
         some ⟨bucket,
               base ++ "/" ++ url_safe_base64_engine_encode (SHA256 chunks.flatten)
                 ++ "." ++ extension,
               base64_engine_encode (SHA256 chunks.flatten),
               chunks.flatten⟩) := by
  rw [writeChunks_eq]
  simp [Syncfs.S3HashedFileOut.persist]

/-! ## Claim C6 -/

/-- Claim C6: for every byte sequence and any two partitions of it into
chunks, writing either chunk sequence through the writer and persisting
yields the same result — the same ContentId, object key, transfer
checksum, and uploaded body: the outcome depends only on the
concatenated content. -/
theorem c6_chunking_determinism (bucket base extension : String)
    (cs1 cs2 : List (List Nat)) (h : cs1.flatten = cs2.flatten) :
    (Syncfs.writeChunks ⟨[], bucket, base, []⟩ cs1).persist extension
        (.ok ()) (.ok ()) (.ok ())
      = (Syncfs.writeChunks ⟨[], bucket, base, []⟩ cs2).persist extension
        (.ok ()) (.ok ()) (.ok ()) := by
  rw [writeChunks_eq, writeChunks_eq, h]

/-- Claim C6, witness: the partitions `[[1],[2,3]]` and `[[1,2],[3]]` of
`[1,2,3]` persist to identical results. -/
theorem c6_chunking_witness :
    (([[1], [2, 3]] : List (List Nat)).flatten = ([[1, 2], [3]] : List (List Nat)).flatten)
  ∧ ((Syncfs.writeChunks ⟨[], "b", "p", []⟩ [[1], [2, 3]]).persist "bin"
        (.ok ()) (.ok ()) (.ok ())
      = (Syncfs.writeChunks ⟨[], "b", "p", []⟩ [[1, 2], [3]]).persist "bin"
        (.ok ()) (.ok ()) (.ok ())) :=
  ⟨by decide, c6_chunking_determinism "b" "p" "bin" [[1], [2, 3]] [[1, 2], [3]] (by decide)⟩

/-! ## Claim C3 -/

/-- Claim C3: for both reader variants, `verify` finalizes the digest
over exactly the bytes previously delivered to the caller (the buffered
`read` and the streaming poll fold exactly the delivered bytes into the
accumulator), encodes it with the standard Base64 alphabet, returns `Ok`
if and only if that encoding equals the checksum captured when the fetch
resolved, and on mismatch returns a verification error whose message
names both the expected and the computed values. -/
theorem c3_verify_contract (rs : Syncfs.S3HashedFileIn)
    (ra : Asyncfs.S3HashedFileIn) (c : String) (hc : ra.checksum = some c) :
    (rs.verify = .ok () ↔ base64_engine_encode (SHA256 rs.digest) = rs.checksum)
  ∧ (base64_engine_encode (SHA256 rs.digest) ≠ rs.checksum →
      rs.verify = .error (.VerificationFailure
        ("checsum discrepancy: expected " ++ rs.checksum ++ " but got "
          ++ base64_engine_encode (SHA256 rs.digest))))
  ∧ (ra.verify = .ok () ↔ base64_engine_encode (SHA256 ra.digest) = c)
  ∧ (base64_engine_encode (SHA256 ra.digest) ≠ c →
      ra.verify = .error (.VerificationFailure
        ("checksum discrepancy: expected " ++ debugOption (some c) ++ " but got "
          ++ base64_engine_encode (SHA256 ra.digest))))
  ∧ (∀ bufLen, ((rs.read bufLen).1).digest = rs.digest ++ (rs.read bufLen).2.2)
  ∧ (∀ (g : Asyncfs.GetPoll) (newBytes filled : List Nat), ra.body = some () →
      ((ra.poll_read g (.ready_ok newBytes) filled).1).digest
        = ra.digest ++ newBytes) := by
  refine ⟨?_, ?_, ?_, ?_, fun bufLen => rfl, ?_⟩
  · by_cases hcase : base64_engine_encode (SHA256 rs.digest) = rs.checksum <;>
      simp [Syncfs.S3HashedFileIn.verify, hcase]
  · intro hne; simp [Syncfs.S3HashedFileIn.verify, hne]
  · by_cases hcase : base64_engine_encode (SHA256 ra.digest) = c <;>
      simp [Asyncfs.S3HashedFileIn.verify, hc, hcase]
  · intro hne; simp [Asyncfs.S3HashedFileIn.verify, hc, hne]
  · intro g newBytes filled hb
    simp only [Asyncfs.S3HashedFileIn.poll_read, hb, Asyncfs.pollBody]
    split
    · simp [List.drop_left]
    · next hgt =>
        have : newBytes = [] := by
          cases newBytes with
          | nil => rfl
          | cons a l => exact absurd (by simp) hgt
        simp [this]

/-- Claim C3, witness: a buffered reader and a streaming reader whose
stored checksum `"x"` mismatches the digest of the (empty) delivered
bytes both fail with the message naming both values. -/
theorem c3_verify_witness :
    ((⟨[], some "x", some ()⟩ : Asyncfs.S3HashedFileIn).checksum = some "x")
  ∧ (base64_engine_encode (SHA256 ([] : List Nat)) ≠ "x")
  ∧ (Syncfs.S3HashedFileIn.verify ⟨[], 0, "x", []⟩
      = .error (.VerificationFailure
        ("checsum discrepancy: expected " ++ "x" ++ " but got "
          ++ base64_engine_encode (SHA256 ([] : List Nat)))))
  ∧ (Asyncfs.S3HashedFileIn.verify ⟨[], some "x", some ()⟩
      = .error (.VerificationFailure
        ("checksum discrepancy: expected " ++ debugOption (some "x") ++ " but got "
          ++ base64_engine_encode (SHA256 ([] : List Nat))))) :=
  ⟨rfl, by decide,
   (c3_verify_contract ⟨[], 0, "x", []⟩ ⟨[], some "x", some ()⟩ "x" rfl).2.1 (by decide),
   (c3_verify_contract ⟨[], 0, "x", []⟩ ⟨[], some "x", some ()⟩ "x" rfl).2.2.2.1 (by decide)⟩

/-! ## Claim C4 -/

/-- Claim C4: a successful `Get` response with no checksum attribute
fails immediately with the "no checksum" context error before any body
byte is delivered: the buffered `open` returns the error whatever the
body-collection outcome would have been, and the streaming reader's poll
returns the error with the state unchanged (the `Streaming` state is
never entered) and the caller's buffer untouched, whatever the body
oracle would have produced. -/
theorem c4_missing_checksum :
    (∀ bodyRes, Syncfs.S3HashedFileIn.openFile (.ok none bodyRes)
        = .error (.InvalidContext "no checksum for the content from S3"))
  ∧ (∀ (s : Asyncfs.S3HashedFileIn) (bodyRes : Asyncfs.BodyPoll)
        (filled : List Nat), s.body = none →
      s.poll_read (.ready_ok none) bodyRes filled
        = (s, .ready_err (.wrappedError
            (.InvalidContext "no checksum for the S3 object")), filled)) := by
  constructor
  · intro bodyRes; rfl
  · intro s bodyRes filled h
    simp [Asyncfs.S3HashedFileIn.poll_read, h]

/-- Claim C4, witness: a concrete checksum-less response is rejected by
the buffered `open` (even though the body would have collected to
`[7]`), and by the fresh streaming reader's poll (even though the body
oracle would have yielded `[9]`). -/
theorem c4_missing_checksum_witness :
    ((⟨[], none, none⟩ : Asyncfs.S3HashedFileIn).body = none)
  ∧ (Syncfs.S3HashedFileIn.openFile (.ok none (.ok [7]))
      = .error (.InvalidContext "no checksum for the content from S3"))
  ∧ (Asyncfs.S3HashedFileIn.poll_read ⟨[], none, none⟩ (.ready_ok none)
        (.ready_ok [9]) []
      = (⟨[], none, none⟩, .ready_err (.wrappedError
          (.InvalidContext "no checksum for the S3 object")), [])) :=
  ⟨rfl, c4_missing_checksum.1 (.ok [7]),
   c4_missing_checksum.2 ⟨[], none, none⟩ (.ready_ok [9]) [] rfl⟩

/-! ## Claim C5 -/

/-- Claim C5: every poll of the streaming reader in the `Streaming` state
that returns a successful result folds into the digest accumulator
exactly the bytes newly added to the caller's buffer during that poll —
the filled region beyond the pre-poll filled length, never bytes already
in the buffer — while polls returning "not ready" or an error fold
nothing and leave the buffer unchanged. -/
theorem c5_streaming_digest (s : Asyncfs.S3HashedFileIn)
    (g : Asyncfs.GetPoll) (filled : List Nat) (h : s.body = some ()) :
    (∀ newBytes, s.poll_read g (.ready_ok newBytes) filled
        = ({ s with digest := s.digest ++ newBytes }, .ready_ok,
           filled ++ newBytes))
  ∧ (s.poll_read g .pending filled = (s, .pending, filled))
  ∧ (∀ e, s.poll_read g (.ready_err e) filled
        = (s, .ready_err (.raw e), filled)) := by
  refine ⟨?_, ?_, ?_⟩
  · intro newBytes
    simp only [Asyncfs.S3HashedFileIn.poll_read, h, Asyncfs.pollBody]
    split
    · simp [List.drop_left]
    · next hgt =>
        have : newBytes = [] := by
          cases newBytes with
          | nil => rfl
          | cons a l => exact absurd (by simp) hgt
        subst this
        simp [← h]
  · simp [Asyncfs.S3HashedFileIn.poll_read, h, Asyncfs.pollBody]
  · intro e; simp [Asyncfs.S3HashedFileIn.poll_read, h, Asyncfs.pollBody]

/-- Claim C5, witness: with pre-filled buffer `[7]`, a successful poll
delivering `[8,9]` folds exactly `[8,9]` into the digest; pending and
error polls fold nothing. -/
theorem c5_streaming_witness :
    ((⟨[7], some "c", some ()⟩ : Asyncfs.S3HashedFileIn).body = some ())
  ∧ ((Asyncfs.S3HashedFileIn.poll_read ⟨[7], some "c", some ()⟩ .pending
        (.ready_ok [8, 9]) [7]
      = (⟨[7] ++ [8, 9], some "c", some ()⟩, .ready_ok, [7] ++ [8, 9]))
  ∧ (Asyncfs.S3HashedFileIn.poll_read ⟨[7], some "c", some ()⟩ .pending
        .pending [7]
      = (⟨[7], some "c", some ()⟩, .pending, [7]))) :=
  ⟨rfl,
   (c5_streaming_digest ⟨[7], some "c", some ()⟩ .pending [7] rfl).1 [8, 9],
   (c5_streaming_digest ⟨[7], some "c", some ()⟩ .pending [7] rfl).2.1⟩

/-! ## Claim C9 -/

/-- Claim C9: the streaming reader's state machine only moves forward.
Once the reader is in the `Streaming` state (`body` present), the poll's
outcome no longer depends on the `GetObject` future (it is never polled
again), every later poll stays in the `Streaming` state, and along any
trace of polls the `AwaitingResponse → Streaming` transition occurs at
most once. -/
theorem c9_forward_only :
    (∀ (s : Asyncfs.S3HashedFileIn) (g₁ g₂ : Asyncfs.GetPoll)
        (b : Asyncfs.BodyPoll) (filled : List Nat), s.body = some () →
      s.poll_read g₁ b filled = s.poll_read g₂ b filled)
  ∧ (∀ (s : Asyncfs.S3HashedFileIn) (g : Asyncfs.GetPoll)
        (b : Asyncfs.BodyPoll) (filled : List Nat), s.body = some () →
      ((s.poll_read g b filled).1).body = some ())
  ∧ (∀ (s : Asyncfs.S3HashedFileIn)
        (tr : List (Asyncfs.GetPoll × Asyncfs.BodyPoll × List Nat)),
      Asyncfs.countTransitions s tr ≤ 1) := by
  refine ⟨?_, poll_read_body_some, ?_⟩
  · intro s g₁ g₂ b filled h
    simp [Asyncfs.S3HashedFileIn.poll_read, h]
  · intro s tr
    induction tr generalizing s with
    | nil => exact Nat.zero_le 1
    | cons i rest ih =>
        simp only [Asyncfs.countTransitions]
        by_cases hb : (Asyncfs.runPoll s i).body = none
        · simp only [hb]
          have : ¬(s.body = none ∧ ¬(none : Option Unit) = none) := by simp
          simpa [this] using ih (Asyncfs.runPoll s i)
        · have hsome : (Asyncfs.runPoll s i).body = some () := by
            cases hx : (Asyncfs.runPoll s i).body with
            | none => exact absurd hx hb
            | some u => cases u; rfl
          rw [countTransitions_streaming rest _ hsome]
          split <;> simp

/-- Claim C9, witness: a streaming-state reader polled with two different
`GetObject` oracles gives identical outcomes, stays streaming, and a
concrete two-poll trace from the fresh reader has at most one
transition. -/
theorem c9_forward_only_witness :
    ((⟨[], some "c", some ()⟩ : Asyncfs.S3HashedFileIn).body = some ())
  ∧ (Asyncfs.S3HashedFileIn.poll_read ⟨[], some "c", some ()⟩ .pending
        (.ready_ok [1]) []
      = Asyncfs.S3HashedFileIn.poll_read ⟨[], some "c", some ()⟩
          (.ready_ok none) (.ready_ok [1]) [])
  ∧ (((Asyncfs.S3HashedFileIn.poll_read ⟨[], some "c", some ()⟩ .pending
        (.ready_ok [1]) []).1).body = some ())
  ∧ (Asyncfs.countTransitions ⟨[], none, none⟩
        [(.ready_ok (some "c"), .ready_ok [1], []),
         (.pending, .ready_ok [2], [1])] ≤ 1) :=
  ⟨rfl,
   c9_forward_only.1 ⟨[], some "c", some ()⟩ .pending (.ready_ok none)
     (.ready_ok [1]) [] rfl,
   c9_forward_only.2.1 ⟨[], some "c", some ()⟩ .pending (.ready_ok [1]) [] rfl,
   c9_forward_only.2.2 ⟨[], none, none⟩ _⟩

end FlechasdbS3
